import Mathlib

/-!
Verification development for the Fliplet AI chatbot: a shallow embedding of
the backend HTTP client (`fliplet-api`), the payload truncation helper, the
tool dispatcher (`tools.js`) and the agent loop (`server.js`), together with
theorems settling the specification claims about them.
-/

namespace FlipletChat

set_option maxRecDepth 8000 in
/-- JSON values, as produced by the backend and passed through the tool layer.
Numbers are modelled as integers (every count and identifier in the claims is
integral); object fields are an ordered association list, mirroring JS object
insertion order (the concrete inputs used in theorems contain no duplicate
keys). -/
inductive Json where
  | null : Json
  | bool (b : Bool) : Json
  | num (n : Int) : Json
  | str (s : String) : Json
  | arr (xs : List Json) : Json
  | obj (fields : List (String × Json)) : Json

/-- JS truthiness of a value: `null`, `false`, `0` and `""` are falsy;
arrays and objects (including empty ones) are truthy. An absent property
(`undefined`) is represented by `Option.none` at use sites. -/
def jsTruthy : Json → Bool
  | Json.null => false
  | Json.bool b => b
  | Json.num n => n != 0
  | Json.str s => s != ""
  | Json.arr _ => true
  | Json.obj _ => true

/-- Escape one character for a JSON string literal, as `JSON.stringify` does
for the characters that can occur in the concrete inputs of this development
(quote, backslash, newline, tab, carriage return). -/
def jsonEscapeChar (c : Char) : String :=
  if c = '"' then "\\\""
  else if c = '\\' then "\\\\"
  else if c = '\n' then "\\n"
  else if c = '\t' then "\\t"
  else if c = '\r' then "\\r"
  else String.singleton c

/-- Escape a whole string for a JSON string literal. -/
def jsonEscape (s : String) : String :=
  s.foldl (fun acc c => acc ++ jsonEscapeChar c) ""

mutual

/-- Serialize a JSON value, modelling `JSON.stringify` (no spaces, fields in
insertion order). -/
def Json.render : Json → String
  | Json.null => "null"
  | Json.bool true => "true"
  | Json.bool false => "false"
  | Json.num n => toString n
  | Json.str s => "\"" ++ jsonEscape s ++ "\""
  | Json.arr xs => "[" ++ renderElems xs ++ "]"
  | Json.obj fs => "\x7b" ++ renderFields fs ++ "\x7d"

/-- Comma-separated rendering of array elements. -/
def renderElems : List Json → String
  | [] => ""
  | [x] => Json.render x
  | x :: y :: rest => Json.render x ++ "," ++ renderElems (y :: rest)

/-- Comma-separated rendering of object fields. -/
def renderFields : List (String × Json) → String
  | [] => ""
  | [(k, v)] => "\"" ++ jsonEscape k ++ "\":" ++ Json.render v
  | (k, v) :: f :: rest =>
      "\"" ++ jsonEscape k ++ "\":" ++ Json.render v ++ "," ++ renderFields (f :: rest)

end

/-- Outcome of one `fetch` call made by the backend client: either the call
itself rejects (network-level failure) with an error message, or the server
responds with a status, a status text, a body (as text) and the body parsed
as JSON (`res.json()`; the concrete inputs of this development all carry
well-formed JSON bodies). -/
inductive FetchOutcome where
  | netError (msg : String) : FetchOutcome
  | response (status : Nat) (statusText : String) (body : String) (json : Json) : FetchOutcome

/-- Model of `res.ok`: status in the 2xx range. -/
def resOk (status : Nat) : Bool :=
  200 ≤ status && status ≤ 299

/-- The error message built for a non-2xx response:
`` `${res.status} ${res.statusText} — ${body.slice(0, 200)}` ``. -/
def httpErrorMsg (status : Nat) (statusText body : String) : String :=
  Nat.repr status ++ " " ++ statusText ++ " — " ++ body.take 200

/-- The error message recorded on a 429 response: `` `429 Rate Limited on ${path}` ``. -/
def rateLimitMsg (path : String) : String :=
  "429 Rate Limited on " ++ path

/-- The initial `lastErr`: `` `Failed after ${MAX_RETRIES} attempts: ${path}` ``. -/
def failedMsg (path : String) : String :=
  "Failed after 3 attempts: " ++ path

namespace FlipletAPI

/-- The body of the retry loop of `FlipletAPI.get`. `fetch` gives the outcome of the
attempt with the given index; `remaining` counts loop iterations still allowed
(`MAX_RETRIES - attempt`); `lastErr` is the current value of the `lastErr`
variable. Returns the overall result together with the number of `fetch`
calls performed. Note that the error thrown for a non-2xx, non-429 status is
raised inside the `try` block and is therefore caught by the catch clause
of the loop itself, which stores it in `lastErr` and lets the loop retry; the `sleep`
calls only delay and are not modelled. -/
def getGo (fetch : Nat → FetchOutcome) (path : String) :
    Nat → Nat → String → Except String Json × Nat
  | 0, _, lastErr => (Except.error lastErr, 0)
  | remaining + 1, attempt, _ =>
      match fetch attempt with
      | FetchOutcome.netError m =>
          let r := getGo fetch path remaining (attempt + 1) m
          (r.1, r.2 + 1)
      | FetchOutcome.response st stx body js =>
          if st = 429 then
            let r := getGo fetch path remaining (attempt + 1) (rateLimitMsg path)
            (r.1, r.2 + 1)
          else if resOk st then (Except.ok js, 1)
          else
            let r := getGo fetch path remaining (attempt + 1) (httpErrorMsg st stx body)
            (r.1, r.2 + 1)

/-- Model of `FlipletAPI.get(path)`: up to `MAX_RETRIES = 3` attempts, starting with
`lastErr` set to the "Failed after 3 attempts" message. The second component
is the number of `fetch` calls performed. -/
def get (fetch : Nat → FetchOutcome) (path : String) : Except String Json × Nat :=
  getGo fetch path 3 0 (failedMsg path)

end FlipletAPI

/-- The constant `MAX_ENTRIES`: the row cap applied by `truncateEntries`. -/
def MAX_ENTRIES : Nat := 50

/-- The value of the local variable `entries` in `truncateEntries`, i.e. the
result of `data?.entries || data?.rows || (Array.isArray(data) ? data : null)`.
`builtinEntries` stands for the inherited `Array.prototype.entries` method:
when `data` is an array, the property access `data?.entries` does not find an
own property but does find that method on the prototype of arrays, a function
value that is truthy and whose `length` (its declared parameter count) is 0 —
so the `Array.isArray(data) ? data : null` branch is unreachable for arrays.
`absent` stands for the chain evaluating to `undefined`/`null` (falsy). -/
inductive Located where
  | builtinEntries : Located
  | val (v : Json) : Located
  | absent : Located

/-- The `data?.rows` fallback of the locator chain, evaluated on the field
list of an object (`||` skips falsy values). -/
def locateRows (fs : List (String × Json)) : Located :=
  match fs.lookup "rows" with
  | Option.some v => if jsTruthy v then Located.val v else Located.absent
  | Option.none => Located.absent

/-- The locator chain `data?.entries || data?.rows || (Array.isArray(data) ? data : null)`.
Arrays hit the inherited `Array.prototype.entries` method (see `Located`);
primitives have neither property and are not arrays, so the chain yields a
falsy value for them. -/
def locateEntries : Json → Located
  | Json.arr _ => Located.builtinEntries
  | Json.obj fs =>
      match fs.lookup "entries" with
      | Option.some v => if jsTruthy v then Located.val v else locateRows fs
      | Option.none => locateRows fs
  | _ => Located.absent

/-- The `_note` string of a truncated payload:
`` `Showing first ${MAX_ENTRIES} of ${entries.length} entries. Ask the user if they need more.` ``. -/
def truncatedNote (total : Nat) : String :=
  "Showing first 50 of " ++ Nat.repr total ++ " entries. Ask the user if they need more."

/-- The replacement object built by `truncateEntries` when the located
collection exceeds the cap, with fields in the insertion order of the source. -/
def truncatedPayload (total : Nat) (sample : Json) : Json :=
  Json.obj [("_truncated", Json.bool true),
            ("_totalCount", Json.num (Int.ofNat total)),
            ("_shownCount", Json.num 50),
            ("_note", Json.str (truncatedNote total)),
            ("entries", sample)]

/-- The tail of `truncateEntries` once a truthy `entries` value `v` has been
located: `if (entries.length <= MAX_ENTRIES) return data` followed by
`entries.slice(0, MAX_ENTRIES)`. Arrays and strings both carry a numeric
`length` and a `slice` method in JS; a located object reads its own `length`
member for the comparison (`undefined <= 50` is false when it is absent or
non-numeric) and, failing the comparison, `entries.slice` is not a function,
which surfaces as a thrown `TypeError`; numbers and booleans likewise have no
`slice`. The `null` case is unreachable (located values are truthy). -/
def truncateLocated (data : Json) : Json → Except String Json
  | Json.arr xs =>
      if xs.length ≤ MAX_ENTRIES then Except.ok data
      else Except.ok (truncatedPayload xs.length (Json.arr (xs.take MAX_ENTRIES)))
  | Json.str s =>
      if s.length ≤ MAX_ENTRIES then Except.ok data
      else Except.ok (truncatedPayload s.length (Json.str (s.take MAX_ENTRIES)))
  | Json.obj fs =>
      match fs.lookup "length" with
      | Option.some (Json.num n) =>
          if n ≤ 50 then Except.ok data
          else Except.error "TypeError: entries.slice is not a function"
      | _ => Except.error "TypeError: entries.slice is not a function"
  | _ => Except.error "TypeError: entries.slice is not a function"

/-- Model of `truncateEntries(data)`: pass `data` through unchanged when no truthy
collection is located or when it is within the cap, otherwise replace it by
the truncated payload. The array case (`builtinEntries`) passes through
because the `length` of the inherited method is `0 <= 50`. -/
def truncateEntries (data : Json) : Except String Json :=
  match locateEntries data with
  | Located.absent => Except.ok data
  | Located.builtinEntries => Except.ok data
  | Located.val v => truncateLocated data v

/-- The path built by `getDataSourceEntries`:
`` `/v1/data-sources/${id}/data` `` (the interpolated id rendered as text). -/
def dataSourceEntriesPath (idStr : String) : String :=
  "/v1/data-sources/" ++ idStr ++ "/data"

/-- Model of `FlipletAPI.getDataSourceEntries(id)`: fetch the data listing, then apply
`truncateEntries` to a successful response (a thrown error propagates). -/
def getDataSourceEntries (fetch : Nat → FetchOutcome) (idStr : String) : Except String Json :=
  match (FlipletAPI.get fetch (dataSourceEntriesPath idStr)).1 with
  | Except.error e => Except.error e
  | Except.ok data => truncateEntries data

mutual

/-- How a JS value prints inside a template literal (`String(v)`): arrays
join their elements with commas (with `null` printing as the empty string in
that position), plain objects print as `[object Object]`. -/
def jsTemplate : Json → String
  | Json.null => "null"
  | Json.bool true => "true"
  | Json.bool false => "false"
  | Json.num n => toString n
  | Json.str s => s
  | Json.arr xs => jsTemplateElems xs
  | Json.obj _ => "[object Object]"

/-- Array elements inside `String(array)`: joined by commas, `null` → "". -/
def jsTemplateElems : List Json → String
  | [] => ""
  | [Json.null] => ""
  | [x] => jsTemplate x
  | Json.null :: y :: rest => "," ++ jsTemplateElems (y :: rest)
  | x :: y :: rest => jsTemplate x ++ "," ++ jsTemplateElems (y :: rest)

end

/-- A possibly-absent value interpolated into a template literal:
`` `${undefined}` `` prints as `undefined`. -/
def jsTemplateOpt : Option Json → String
  | Option.none => "undefined"
  | Option.some v => jsTemplate v

/-- Property read `input[key]` on the tool input (an object in every call the
model can make; non-objects have no such own properties). -/
def inputGet (input : Json) (key : String) : Option Json :=
  match input with
  | Json.obj fs => fs.lookup key
  | _ => Option.none

/-- The seven tool names declared by `buildTools` / routed by `executeTool`. -/
def routeNames : List String :=
  ["get_app_info", "list_data_sources", "get_data_source", "get_data_source_entries",
   "list_media_folders", "get_folder_files", "get_file_info"]

/-- Member names the `routes` object literal inherits from `Object.prototype`.
For these names `routes[name]` is truthy even though they match no catalog
entry, so `executeTool` does not reach its `Unknown tool` throw; instead the
inherited member is invoked as the handler. -/
def objectProtoNames : List String :=
  ["constructor", "toString", "toLocaleString", "valueOf", "hasOwnProperty",
   "isPrototypeOf", "propertyIsEnumerable", "__defineGetter__", "__defineSetter__",
   "__lookupGetter__", "__lookupSetter__", "__proto__"]

/-- Model of `executeTool(name, input, api, defaultAppId)`: resolve
`input.app_id || defaultAppId`, look the name up in the `routes` table and run
the matching Backend Client accessor; errors (including thrown ones) surface
as `Except.error`. Because `routes` is a plain object literal, the lookup
`routes[name]` also finds members inherited from `Object.prototype`: for
`name = "constructor"` the handler is the built-in `Object` constructor, whose
detached call `Object()` returns a fresh empty object, so the dispatch
*succeeds* with `{}`. The remaining inherited member names (`toString`,
`valueOf`, ...) also bypass the `Unknown tool` throw, but their detached-call
behaviour is environment-dependent and is not modelled here — theorems about
unknown names therefore exclude all of `objectProtoNames`, not only
`"constructor"`. Every other unknown name throws `` `Unknown tool: ${name}` ``. -/
def executeTool (fetch : Nat → FetchOutcome) (defaultAppId : Json)
    (name : String) (input : Json) : Except String Json :=
  let appId :=
    match inputGet input "app_id" with
    | Option.some v => if jsTruthy v then v else defaultAppId
    | Option.none => defaultAppId
  if name = "get_app_info" then
    (FlipletAPI.get fetch ("/v1/apps/" ++ jsTemplate appId)).1
  else if name = "list_data_sources" then
    (FlipletAPI.get fetch ("/v1/data-sources?appId=" ++ jsTemplate appId)).1
  else if name = "get_data_source" then
    (FlipletAPI.get fetch
      ("/v1/data-sources/" ++ jsTemplateOpt (inputGet input "data_source_id"))).1
  else if name = "get_data_source_entries" then
    getDataSourceEntries fetch (jsTemplateOpt (inputGet input "data_source_id"))
  else if name = "list_media_folders" then
    (FlipletAPI.get fetch ("/v1/media/folders?appId=" ++ jsTemplate appId)).1
  else if name = "get_folder_files" then
    (FlipletAPI.get fetch
      ("/v1/media/folders/" ++ jsTemplateOpt (inputGet input "folder_id") ++ "/files")).1
  else if name = "get_file_info" then
    (FlipletAPI.get fetch ("/v1/media/files/" ++ jsTemplateOpt (inputGet input "file_id"))).1
  else if name = "constructor" then
    Except.ok (Json.obj [])
  else
    Except.error ("Unknown tool: " ++ name)

/-- A content block of an assistant message: a text block or a tool-invocation
block (`tool_use`, carrying the opaque invocation id, the tool name and the
input object). -/
inductive Block where
  | text (t : String) : Block
  | tool_use (invId : String) (name : String) (input : Json) : Block

/-- Whether a block is a tool-invocation block (the `type` field equals `tool_use`). -/
def Block.isToolUse : Block → Bool
  | Block.tool_use _ _ _ => true
  | _ => false

/-- Whether a block is a text block (the `type` field equals `text`). -/
def Block.isText : Block → Bool
  | Block.text _ => true
  | _ => false

/-- The `text` field of a block (only read on text blocks). -/
def Block.textOf : Block → String
  | Block.text t => t
  | _ => ""

/-- The `id` field of a block (only read on `tool_use` blocks). -/
def Block.bid : Block → String
  | Block.tool_use i _ _ => i
  | _ => ""

/-- The `name` field of a block (only read on `tool_use` blocks). -/
def Block.bname : Block → String
  | Block.tool_use _ n _ => n
  | _ => ""

/-- The `input` field of a block (only read on `tool_use` blocks). -/
def Block.binput : Block → Json
  | Block.tool_use _ _ j => j
  | _ => Json.null

/-- One entry of the tool-result batch pushed as the next user message:
an object carrying `tool_use_id`, `content` and optionally `is_error`. The source omits
the `is_error` field on success; absence is modelled as `false`. -/
structure ToolResult where
  tool_use_id : String
  content : String
  is_error : Bool
deriving DecidableEq

/-- A conversation message: a plain-text user message, an assistant message
carrying content blocks, or the user-role message of tool results fed back
after a tool round. -/
inductive Msg where
  | userText (s : String) : Msg
  | assistant (content : List Block) : Msg
  | userResults (results : List ToolResult) : Msg

/-- Whether a message is an assistant message. -/
def Msg.isAssistant : Msg → Bool
  | Msg.assistant _ => true
  | _ => false

/-- A model response: the assembled content blocks and the stop reason. -/
structure Response where
  content : List Block
  stop_reason : String

/-- The reply extracted from an `end_turn` response: the text of all text
blocks, in order, joined by newlines. -/
def replyOf (content : List Block) : String :=
  String.intercalate "\n" ((content.filter Block.isText).map Block.textOf)

/-- Whether an `Except` is an error. -/
def isErr : Except String Json → Bool
  | Except.error _ => true
  | Except.ok _ => false

/-- The Tool Result produced for one `tool_use` block: on success a
success-tagged result whose content is the stringified payload, on a thrown
error an error-tagged result whose content is the stringified
`{error: err.message}`. -/
def resultOf (exec : String → Json → Except String Json) (b : Block) : ToolResult :=
  match exec b.bname b.binput with
  | Except.ok j =>
      { tool_use_id := b.bid, content := Json.render j, is_error := false }
  | Except.error m =>
      { tool_use_id := b.bid,
        content := Json.render (Json.obj [("error", Json.str m)]),
        is_error := true }

/-- The `for`/`push` loop over the filtered `tool_use` blocks, with `acc` the
`toolResults` array built so far. -/
def runToolRoundGo (exec : String → Json → Except String Json) :
    List Block → List ToolResult → List ToolResult
  | [], acc => acc
  | b :: rest, acc => runToolRoundGo exec rest (acc ++ [resultOf exec b])

/-- The whole tool round: one result per `tool_use` block of the response
content, in emission order. -/
def runToolRound (exec : String → Json → Except String Json)
    (content : List Block) : List ToolResult :=
  runToolRoundGo exec (content.filter Block.isToolUse) []

/-- The constant `MAX_TOOL_ROUNDS`. -/
def MAX_TOOL_ROUNDS : Nat := 10

/-- The fixed advisory reply returned when the round budget is exhausted. -/
def fallbackReply : String :=
  "Hit the tool-call limit. Try a more specific question."

/-- The body of `agentLoop`, by remaining rounds. The model capability is a
function from the current conversation to a response (one outstanding model
call at a time); `exec` dispatches one invocation. On `end_turn` the joined
text is returned with the conversation extended by the assistant message; on
`tool_use` the tool-result user message is appended as well and the loop
recurses; on any other stop reason only the assistant message is appended and
the loop recurses. Exhausting the budget returns the fallback reply. -/
def agentLoopGo (model : List Msg → Response)
    (exec : String → Json → Except String Json) :
    Nat → List Msg → String × List Msg
  | 0, msgs => (fallbackReply, msgs)
  | fuel + 1, msgs =>
      let resp := model msgs
      let msgs1 := msgs ++ [Msg.assistant resp.content]
      if resp.stop_reason = "end_turn" then (replyOf resp.content, msgs1)
      else if resp.stop_reason = "tool_use" then
        agentLoopGo model exec fuel
          (msgs1 ++ [Msg.userResults (runToolRound exec resp.content)])
      else agentLoopGo model exec fuel msgs1

/-- Model of `agentLoop(messages)`: at most `MAX_TOOL_ROUNDS = 10` rounds. -/
def agentLoop (model : List Msg → Response)
    (exec : String → Json → Except String Json) (msgs : List Msg) : String × List Msg :=
  agentLoopGo model exec 10 msgs

/-- The events observable on the streaming channel: incremental text
fragments, tool-invocation-start notifications, and the terminal event
carrying the same `{reply, history}` pair as the blocking mode. -/
inductive Ev where
  | text_delta (text : String) : Ev
  | tool_start (name : String) (input : Json) : Ev
  | done (reply : String) (history : List Msg) : Ev

/-- Whether an event is an intermediate progress event (not the terminal one). -/
def isIntermediateEv : Ev → Bool
  | Ev.text_delta _ => true
  | Ev.tool_start _ _ => true
  | Ev.done _ _ => false

/-- The `tool_start` events of one round, emitted immediately before each
dispatch; since dispatches emit no events, the event order of a round is all
text deltas followed by the `tool_start`s in invocation order. -/
def toolStartEvents (content : List Block) : List Ev :=
  (content.filter Block.isToolUse).map (fun b => Ev.tool_start b.bname b.binput)

/-- The streaming variant of `agentLoopGo`: the same state machine, but each
model call additionally emits the text fragments delivered by the stream
(`frags`, a property of the external streaming capability) and each tool
round emits its `tool_start` notifications. Returns the blocking-shaped
result together with the ordered intermediate events. -/
def agentLoopEvGo (model : List Msg → Response)
    (exec : String → Json → Except String Json) (frags : List Msg → List String) :
    Nat → List Msg → (String × List Msg) × List Ev
  | 0, msgs => ((fallbackReply, msgs), [])
  | fuel + 1, msgs =>
      let resp := model msgs
      let tevs := (frags msgs).map Ev.text_delta
      let msgs1 := msgs ++ [Msg.assistant resp.content]
      if resp.stop_reason = "end_turn" then ((replyOf resp.content, msgs1), tevs)
      else if resp.stop_reason = "tool_use" then
        let r := agentLoopEvGo model exec frags fuel
          (msgs1 ++ [Msg.userResults (runToolRound exec resp.content)])
        (r.1, tevs ++ toolStartEvents resp.content ++ r.2)
      else
        let r := agentLoopEvGo model exec frags fuel msgs1
        (r.1, tevs ++ r.2)

/-- The full streaming turn as delivered to the transport: the intermediate
events followed by exactly one terminal `done` event carrying the result of
the loop, as the SSE layer sends it with the reply and the history. -/
def streamTurn (model : List Msg → Response)
    (exec : String → Json → Except String Json) (frags : List Msg → List String)
    (msgs : List Msg) : List Ev :=
  let r := agentLoopEvGo model exec frags 10 msgs
  r.2 ++ [Ev.done r.1.1 r.1.2]

/-- The constant `MAX_HISTORY_MESSAGES`. -/
def MAX_HISTORY_MESSAGES : Nat := 40

/-- Model of `trimHistory(messages)`: the identity below the window, otherwise
`messages.slice(-40)`, i.e. the suffix of the most recent 40 messages. -/
def trimHistory (msgs : List Msg) : List Msg :=
  if msgs.length ≤ MAX_HISTORY_MESSAGES then msgs
  else msgs.drop (msgs.length - MAX_HISTORY_MESSAGES)

/-- The conversation after `n` consecutive `tool_use` rounds: each round
appends the assistant message and the matching tool-result user message. -/
def toolRounds (model : List Msg → Response)
    (exec : String → Json → Except String Json) : Nat → List Msg → List Msg
  | 0, msgs => msgs
  | n + 1, msgs =>
      toolRounds model exec n
        (msgs ++ [Msg.assistant (model msgs).content,
                  Msg.userResults (runToolRound exec (model msgs).content)])

/-- The conversation after `n` consecutive rounds whose stop reason is neither
`end_turn` nor `tool_use`: each round appends only the assistant message. -/
def assistantRounds (model : List Msg → Response) : Nat → List Msg → List Msg
  | 0, msgs => msgs
  | n + 1, msgs => assistantRounds model n (msgs ++ [Msg.assistant (model msgs).content])

/-- Whether a message list is a sequence of assistant/tool-result pairs in
which each tool-result message answers exactly the preceding assistant
invocations of the preceding assistant message. -/
def alternatingPairs (exec : String → Json → Except String Json) : List Msg → Bool
  | [] => true
  | Msg.assistant c :: Msg.userResults rs :: rest =>
      if rs = runToolRound exec c then alternatingPairs exec rest else false
  | _ => false

/-- Whether the located entry collection of a data listing is an array of at most
50 entries (covering the named field, the fallback field and the bare-list
forms of a row listing). -/
def locatedSmall (data : Json) : Bool :=
  match data with
  | Json.arr xs => decide (xs.length ≤ 50)
  | _ =>
      match locateEntries data with
      | Located.val (Json.arr xs) => decide (xs.length ≤ 50)
      | _ => false

/-- Whether a result is an object carrying a `truncated` member (the key the
spec names, without the underscore prefix the source writes). -/
def hasTruncatedKey : Except String Json → Bool
  | Except.ok (Json.obj fs) => (fs.lookup "truncated").isSome
  | _ => false


/-- A data listing that is a bare JSON array of 51 entries. -/
def bare51 : Json := Json.arr (List.replicate 51 Json.null)

/-- A data listing wrapping 51 entries under the `entries` field. -/
def wrapped51 : Json := Json.obj [("entries", Json.arr (List.replicate 51 Json.null))]

/-- A backend that answers every attempt with 200 and the bare 51-entry array. -/
def fetchBare51 : Nat → FetchOutcome := fun _ => FetchOutcome.response 200 "OK" "" bare51

/-- A backend that answers every attempt with 200 and the wrapped 51-entry listing. -/
def fetchWrapped51 : Nat → FetchOutcome := fun _ => FetchOutcome.response 200 "OK" "" wrapped51

/-- A data listing wrapping three rows under the fallback `rows` field. -/
def rowsWrapped3 : Json := Json.obj [("rows", Json.arr [Json.num 1, Json.num 2, Json.num 3])]

/-- A backend that answers every attempt with 200 and the three-row listing. -/
def fetchRows3 : Nat → FetchOutcome := fun _ => FetchOutcome.response 200 "OK" "" rowsWrapped3

/-- A 41-message conversation submitted to a turn: an assistant tool-use
message and the tool-result message answering it, followed by 38 older texts
and the newly appended user message. Its 40-message suffix starts exactly at
the tool-result message, splitting the pair. Such a shape is reachable: the
server returns the full updated conversation to the caller, so after turns
with several tool rounds the trim boundary can fall between the two messages
of a pair. -/
def c4History : List Msg :=
  Msg.assistant [Block.tool_use "toolu_01" "list_data_sources" (Json.obj [])]
    :: Msg.userResults [{ tool_use_id := "toolu_01", content := "[]", is_error := false }]
    :: List.replicate 39 (Msg.userText "and the media folders?")

/-- A model that requests the same single tool invocation in every round. -/
def toolUseModel : List Msg → Response :=
  fun _ => { content := [Block.tool_use "t1" "get_app_info" (Json.obj [])],
             stop_reason := "tool_use" }

/-- A dispatcher that always succeeds with `null`. -/
def okExec : String → Json → Except String Json := fun _ _ => Except.ok Json.null

/-- A one-message starting conversation. -/
def demoMsgs : List Msg := [Msg.userText "What data sources does this app have?"]

/-- A model whose stop reason is always `max_tokens`. -/
def maxTokensModel : List Msg → Response :=
  fun _ => { content := [Block.text "truncated mid-thought"], stop_reason := "max_tokens" }

/-- A dispatcher that always fails with the message `boom`. -/
def failingExec : String → Json → Except String Json := fun _ _ => Except.error "boom"

/-- A tool-use block whose dispatch fails under `failingExec`. -/
def failingBlock : Block := Block.tool_use "tb_1" "get_data_source" (Json.obj [])

/-- A backend that answers every attempt with 200 and a `null` body. -/
def someFetch : Nat → FetchOutcome := fun _ => FetchOutcome.response 200 "OK" "" Json.null

/-- A tool-use block invoking the catalog-less name `constructor`. -/
def constructorBlock : Block := Block.tool_use "tu_1" "constructor" (Json.obj [])

/-- The `push` loop of a tool round is the map of `resultOf` over the blocks
it visits, appended to the accumulator. -/
theorem runToolRoundGo_eq_map (exec : String → Json → Except String Json) :
    ∀ (bs : List Block) (acc : List ToolResult),
      runToolRoundGo exec bs acc = acc ++ bs.map (resultOf exec) := by
  intro bs
  induction bs with
  | nil => intro acc; simp [runToolRoundGo]
  | cons b rest ih => intro acc; simp [runToolRoundGo, ih]

/-- A tool round yields exactly the mapped results of the `tool_use` blocks. -/
theorem runToolRound_eq_map (exec : String → Json → Except String Json)
    (content : List Block) :
    runToolRound exec content = (content.filter Block.isToolUse).map (resultOf exec) := by
  simp [runToolRound, runToolRoundGo_eq_map]

/-- Every Tool Result carries the invocation id of the block it answers. -/
theorem resultOf_tool_use_id (exec : String → Json → Except String Json) (b : Block) :
    (resultOf exec b).tool_use_id = b.bid := by
  unfold resultOf
  cases exec b.bname b.binput <;> rfl

/-- A Tool Result is error-tagged exactly when its dispatch failed. -/
theorem resultOf_is_error (exec : String → Json → Except String Json) (b : Block) :
    (resultOf exec b).is_error = isErr (exec b.bname b.binput) := by
  unfold resultOf isErr
  cases exec b.bname b.binput <;> rfl

/-- The ids of a mapped result batch are the ids of the mapped blocks. -/
theorem map_resultOf_id (exec : String → Json → Except String Json) :
    ∀ l : List Block,
      (l.map (resultOf exec)).map ToolResult.tool_use_id = l.map Block.bid := by
  intro l
  induction l with
  | nil => rfl
  | cons b t ih => simp [resultOf_tool_use_id, ih]

/-- The error tags of a mapped result batch mirror the dispatch outcomes. -/
theorem map_resultOf_error (exec : String → Json → Except String Json) :
    ∀ l : List Block,
      (l.map (resultOf exec)).map ToolResult.is_error
        = l.map (fun b => isErr (exec b.bname b.binput)) := by
  intro l
  induction l with
  | nil => rfl
  | cons b t ih => simp [resultOf_is_error, ih]

/-- A listing whose located collection is a small array passes through
`truncateEntries` unchanged. -/
theorem truncateEntries_small (data : Json) (h : locatedSmall data = true) :
    truncateEntries data = Except.ok data := by
  cases data with
  | arr xs => simp [truncateEntries, locateEntries]
  | null => simp [truncateEntries, locateEntries]
  | bool b => simp [truncateEntries, locateEntries]
  | num n => simp [truncateEntries, locateEntries]
  | str s => simp [truncateEntries, locateEntries]
  | obj fs =>
      simp only [locatedSmall] at h
      cases hl : locateEntries (Json.obj fs) with
      | absent => simp [truncateEntries, hl]
      | builtinEntries => simp [truncateEntries, hl]
      | val v =>
          rw [hl] at h
          cases v with
          | arr xs =>
              simp only [decide_eq_true_eq] at h
              simp [truncateEntries, hl, truncateLocated, MAX_ENTRIES, h]
          | null => simp at h
          | bool b => simp at h
          | num n => simp at h
          | str s => simp at h
          | obj gs => simp at h

/-- Under a model that always requests tools, the loop spends all its fuel
and returns the fallback reply over the accumulated tool rounds. -/
theorem agentLoopGo_toolRounds (model : List Msg → Response)
    (exec : String → Json → Except String Json)
    (h : ∀ m, (model m).stop_reason = "tool_use") :
    ∀ (n : Nat) (msgs : List Msg),
      agentLoopGo model exec n msgs = (fallbackReply, toolRounds model exec n msgs) := by
  intro n
  induction n with
  | zero => intro msgs; rfl
  | succ k ih => intro msgs; simp [agentLoopGo, toolRounds, h msgs, ih]

/-- The conversation built by `n` tool rounds is the input followed by a tail
of `2 * n` messages forming assistant/tool-result pairs. -/
theorem toolRounds_decomp (model : List Msg → Response)
    (exec : String → Json → Except String Json) :
    ∀ (n : Nat) (msgs : List Msg), ∃ tail : List Msg,
      toolRounds model exec n msgs = msgs ++ tail ∧ tail.length = 2 * n ∧
      alternatingPairs exec tail = true := by
  intro n
  induction n with
  | zero => intro msgs; exact ⟨[], by simp [toolRounds], rfl, rfl⟩
  | succ k ih =>
      intro msgs
      obtain ⟨tail, h1, h2, h3⟩ :=
        ih (msgs ++ [Msg.assistant (model msgs).content,
                     Msg.userResults (runToolRound exec (model msgs).content)])
      refine ⟨[Msg.assistant (model msgs).content,
               Msg.userResults (runToolRound exec (model msgs).content)] ++ tail, ?_, ?_, ?_⟩
      · simp [toolRounds, h1]
      · simp [h2]; omega
      · simp [alternatingPairs, h3]

/-- Under a model that never ends the turn and never requests tools, the
loop spends all its fuel appending only assistant messages. -/
theorem agentLoopGo_assistantRounds (model : List Msg → Response)
    (exec : String → Json → Except String Json)
    (h : ∀ m, (model m).stop_reason ≠ "end_turn" ∧ (model m).stop_reason ≠ "tool_use") :
    ∀ (n : Nat) (msgs : List Msg),
      agentLoopGo model exec n msgs = (fallbackReply, assistantRounds model n msgs) := by
  intro n
  induction n with
  | zero => intro msgs; rfl
  | succ k ih =>
      intro msgs
      simp [agentLoopGo, assistantRounds, (h msgs).1, (h msgs).2, ih]

/-- The conversation built by `n` assistant-only rounds is the input followed
by a tail of `n` assistant messages. -/
theorem assistantRounds_decomp (model : List Msg → Response) :
    ∀ (n : Nat) (msgs : List Msg), ∃ tail : List Msg,
      assistantRounds model n msgs = msgs ++ tail ∧ tail.length = n ∧
      tail.all Msg.isAssistant = true := by
  intro n
  induction n with
  | zero => intro msgs; exact ⟨[], by simp [assistantRounds], rfl, rfl⟩
  | succ k ih =>
      intro msgs
      obtain ⟨tail, h1, h2, h3⟩ := ih (msgs ++ [Msg.assistant (model msgs).content])
      refine ⟨[Msg.assistant (model msgs).content] ++ tail, ?_, ?_, ?_⟩
      · simp [assistantRounds, h1]
      · simp [h2]
      · simp [Msg.isAssistant, h3]

/-- Text-fragment events are intermediate events. -/
theorem textDeltas_intermediate :
    ∀ l : List String, (l.map Ev.text_delta).all isIntermediateEv = true := by
  intro l
  induction l with
  | nil => rfl
  | cons a t ih => simp [isIntermediateEv, ih]

/-- Tool-start events are intermediate events. -/
theorem toolStarts_intermediate (content : List Block) :
    (toolStartEvents content).all isIntermediateEv = true := by
  unfold toolStartEvents
  generalize content.filter Block.isToolUse = l
  induction l with
  | nil => rfl
  | cons b t ih => simp [isIntermediateEv, ih]

/-- The streaming loop body computes the same result as the blocking loop
body at every fuel level, and emits only intermediate events. -/
theorem evGo_spec (model : List Msg → Response)
    (exec : String → Json → Except String Json) (frags : List Msg → List String) :
    ∀ (fuel : Nat) (msgs : List Msg),
      (agentLoopEvGo model exec frags fuel msgs).1 = agentLoopGo model exec fuel msgs ∧
      (agentLoopEvGo model exec frags fuel msgs).2.all isIntermediateEv = true := by
  intro fuel
  induction fuel with
  | zero => intro msgs; exact ⟨rfl, rfl⟩
  | succ k ih =>
      intro msgs
      have iha : ∀ ms, (agentLoopEvGo model exec frags k ms).1 = agentLoopGo model exec k ms :=
        fun ms => (ih ms).1
      have ihb : ∀ ms, (agentLoopEvGo model exec frags k ms).2.all isIntermediateEv = true :=
        fun ms => (ih ms).2
      by_cases h1 : (model msgs).stop_reason = "end_turn"
      · exact ⟨by simp [agentLoopEvGo, agentLoopGo, h1],
               by simp [agentLoopEvGo, h1, textDeltas_intermediate]⟩
      · by_cases h2 : (model msgs).stop_reason = "tool_use"
        · exact ⟨by simp [agentLoopEvGo, agentLoopGo, h1, h2, iha],
                 by simp [agentLoopEvGo, h1, h2, List.all_append,
                   textDeltas_intermediate, toolStarts_intermediate, ihb]⟩
        · exact ⟨by simp [agentLoopEvGo, agentLoopGo, h1, h2, iha],
                 by simp [agentLoopEvGo, h1, h2, List.all_append,
                   textDeltas_intermediate, ihb]⟩

/-- Claim C1, counterexample: a backend answering 404 on every attempt. The
claim says the request fails immediately with no retry attempts, but the
operation performs 3 fetch calls — the status error is raised inside the
try block and the retry loop catches and retries it. -/
theorem c1_counterexample :
    FlipletAPI.get (fun _ => FetchOutcome.response 404 "Not Found" "no such app" Json.null)
        "/v1/apps/1"
      = (Except.error (httpErrorMsg 404 "Not Found" "no such app"), 3) ∧
    (3 : Nat) ≠ 1 := by
  exact ⟨rfl, by decide⟩

set_option maxRecDepth 8000 in
/-- Claim C1, amended: when the server responds with a non-2xx status other
than 429 on every attempt, `FlipletAPI.get` fails with an error carrying the
status code and the first 200 characters of the response body of the final
attempt — but only after exhausting all 3 attempts; such failures are retried
like transient ones, not failed immediately. -/
theorem c1_permanent_error_retried (fetch : Nat → FetchOutcome) (path : String)
    (st : Nat → Nat) (stx body : Nat → String) (js : Nat → Json)
    (hf : ∀ i, i < 3 → fetch i = FetchOutcome.response (st i) (stx i) (body i) (js i))
    (hok : ∀ i, i < 3 → resOk (st i) = false)
    (h429 : ∀ i, i < 3 → st i ≠ 429) :
    FlipletAPI.get fetch path = (Except.error (httpErrorMsg (st 2) (stx 2) (body 2)), 3) := by
  have f0 := hf 0 (by omega); have f1 := hf 1 (by omega); have f2 := hf 2 (by omega)
  have o0 := hok 0 (by omega); have o1 := hok 1 (by omega); have o2 := hok 2 (by omega)
  have n0 := h429 0 (by omega); have n1 := h429 1 (by omega); have n2 := h429 2 (by omega)
  simp [FlipletAPI.get, FlipletAPI.getGo, f0, f1, f2, o0, o1, o2, n0, n1, n2]

/-- Claim C1, witness: the amended theorem applied to a backend answering 404
with body `gone` on every attempt. -/
theorem c1_witness :
    resOk 404 = false ∧ (404 : Nat) ≠ 429 ∧
    FlipletAPI.get (fun _ => FetchOutcome.response 404 "Not Found" "gone" Json.null) "/v1/apps/9"
      = (Except.error (httpErrorMsg 404 "Not Found" "gone"), 3) :=
  ⟨rfl, by decide,
    c1_permanent_error_retried _ "/v1/apps/9" (fun _ => 404) (fun _ => "Not Found")
      (fun _ => "gone") (fun _ => Json.null) (fun _ _ => rfl) (fun _ _ => rfl)
      (fun _ _ => (by decide : (404 : Nat) ≠ 429))⟩

set_option maxRecDepth 8000 in
/-- Claim C2, counterexample: the claim fails twice over. A bare-array
listing of 51 entries is returned unchanged instead of being replaced by the
truncated payload (the locator resolves the `entries` property of an array to
the inherited `Array.prototype.entries` method), and even the wrapped-listing
output carries no `truncated` key (the source writes `_truncated`). -/
theorem c2_counterexample :
    (List.replicate 51 (Json.null)).length = 51 ∧
    getDataSourceEntries fetchBare51 "7" = Except.ok bare51 ∧
    hasTruncatedKey (getDataSourceEntries fetchWrapped51 "7") = false := by
  refine ⟨by decide, rfl, rfl⟩

set_option maxRecDepth 8000 in
/-- Claim C2, amended: for every row-listing response whose entry collection
is wrapped under the `entries` or `rows` field and has more than 50 entries,
`getDataSourceEntries` returns the payload with fields `_truncated = true`,
`_totalCount` = the original length, `_shownCount = 50`, the `_note` text and
`entries` = the first 50 elements in original order; a bare-list response is
returned unchanged regardless of length. -/
theorem c2_wrapped_truncation (fetch : Nat → FetchOutcome) (idStr : String)
    (data : Json) (xs : List Json)
    (hget : (FlipletAPI.get fetch (dataSourceEntriesPath idStr)).1 = Except.ok data)
    (hloc : locateEntries data = Located.val (Json.arr xs))
    (hbig : 50 < xs.length) :
    getDataSourceEntries fetch idStr
      = Except.ok (truncatedPayload xs.length (Json.arr (xs.take 50))) ∧
    ∀ (g : Nat → FetchOutcome) (idStr2 : String) (ys : List Json),
      (FlipletAPI.get g (dataSourceEntriesPath idStr2)).1 = Except.ok (Json.arr ys) →
      getDataSourceEntries g idStr2 = Except.ok (Json.arr ys) := by
  constructor
  · simp only [getDataSourceEntries, hget]
    simp [truncateEntries, hloc, truncateLocated, MAX_ENTRIES, Nat.not_le.mpr hbig]
  · intro g idStr2 ys hg
    simp [getDataSourceEntries, hg, truncateEntries, locateEntries]

/-- Claim C2, witness: the amended theorem applied to the wrapped 51-entry
listing (truncated to its first 50) and to the bare 51-entry listing
(returned unchanged). -/
theorem c2_witness :
    (FlipletAPI.get fetchWrapped51 (dataSourceEntriesPath "7")).1 = Except.ok wrapped51 ∧
    locateEntries wrapped51 = Located.val (Json.arr (List.replicate 51 Json.null)) ∧
    50 < (List.replicate 51 (Json.null)).length ∧
    getDataSourceEntries fetchWrapped51 "7"
      = Except.ok (truncatedPayload 51 (Json.arr (List.replicate 50 Json.null))) ∧
    getDataSourceEntries fetchBare51 "7" = Except.ok bare51 := by
  refine ⟨rfl, rfl, by decide, ?_, ?_⟩
  · have h := (c2_wrapped_truncation fetchWrapped51 "7" wrapped51
      (List.replicate 51 Json.null) rfl rfl (by decide)).1
    simpa using h
  · exact (c2_wrapped_truncation fetchWrapped51 "7" wrapped51
      (List.replicate 51 Json.null) rfl rfl (by decide)).2 fetchBare51 "7"
      (List.replicate 51 Json.null) rfl

set_option maxRecDepth 8000 in
/-- Claim C3, counterexample: on three consecutive 429 responses the thrown
error is the rate-limit message, not the "Failed after 3 attempts" message the
claim names — `lastErr` is overwritten on every 429, so the initial message
is never the one thrown. -/
theorem c3_counterexample :
    FlipletAPI.get (fun _ => FetchOutcome.response 429 "Too Many Requests" "" Json.null)
        "/v1/apps/1"
      = (Except.error (rateLimitMsg "/v1/apps/1"), 3) ∧
    rateLimitMsg "/v1/apps/1" ≠ failedMsg "/v1/apps/1" := by
  exact ⟨rfl, by decide⟩

set_option maxRecDepth 8000 in
/-- Claim C3, amended: if the backend responds 429 on all three attempts,
`FlipletAPI.get` fails after exactly 3 fetch calls, with no successful
request, carrying the last rate-limit error ("429 Rate Limited on path")
rather than the "Failed after 3 attempts" message. -/
theorem c3_rate_limited_exhaustion (fetch : Nat → FetchOutcome) (path : String)
    (stx body : Nat → String) (js : Nat → Json)
    (hf : ∀ i, i < 3 → fetch i = FetchOutcome.response 429 (stx i) (body i) (js i)) :
    FlipletAPI.get fetch path = (Except.error (rateLimitMsg path), 3) := by
  have f0 := hf 0 (by omega); have f1 := hf 1 (by omega); have f2 := hf 2 (by omega)
  simp [FlipletAPI.get, FlipletAPI.getGo, f0, f1, f2]

/-- Claim C3, witness: the amended theorem applied to a backend answering 429
on every attempt. -/
theorem c3_witness :
    ((fun _ : Nat => FetchOutcome.response 429 "Too Many" "" Json.null) 0
       = FetchOutcome.response 429 "Too Many" "" Json.null) ∧
    FlipletAPI.get (fun _ => FetchOutcome.response 429 "Too Many" "" Json.null) "/v1/media/files/4"
      = (Except.error (rateLimitMsg "/v1/media/files/4"), 3) :=
  ⟨rfl,
    c3_rate_limited_exhaustion _ "/v1/media/files/4" (fun _ => "Too Many") (fun _ => "")
      (fun _ => Json.null) (fun _ _ => rfl)⟩

set_option maxRecDepth 8000 in
/-- Claim C4, code-bug evidence: `trimHistory` evaluated at the 41-message
conversation `c4History` keeps the 40-message suffix, whose first message is
the tool-result user message while the assistant message carrying the
invocation it answers has been dropped — the trimmed output contains no
assistant message at all, so the model-message/tool-result pair is split,
contrary to the claim (and to the stated intent of dropping oldest pairs
whole). -/
theorem c4_trim_splits_pair :
    c4History.length = 41 ∧
    (trimHistory c4History).length = 40 ∧
    (trimHistory c4History).head?
      = some (Msg.userResults
          [{ tool_use_id := "toolu_01", content := "[]", is_error := false }]) ∧
    (trimHistory c4History).any Msg.isAssistant = false := by
  refine ⟨by decide, by decide, rfl, by decide⟩

set_option maxRecDepth 8000 in
/-- Claim C5: in a round whose stop reason is `tool_use`, the loop appends —
before the next model call — exactly one user-role message whose tool results
are one per invocation block, in emission order, each carrying the invocation
id of its block, and each tagged success or error exactly according to the
dispatch outcome; the loop never advances with unanswered invocations. -/
theorem c5_tool_round_invariant (model : List Msg → Response)
    (exec : String → Json → Except String Json) (msgs : List Msg) (fuel : Nat)
    (h : (model msgs).stop_reason = "tool_use") :
    agentLoopGo model exec (fuel + 1) msgs
      = agentLoopGo model exec fuel
          (msgs ++ [Msg.assistant (model msgs).content,
                    Msg.userResults (runToolRound exec (model msgs).content)]) ∧
    runToolRound exec (model msgs).content
      = ((model msgs).content.filter Block.isToolUse).map (resultOf exec) ∧
    (runToolRound exec (model msgs).content).map ToolResult.tool_use_id
      = ((model msgs).content.filter Block.isToolUse).map Block.bid ∧
    (runToolRound exec (model msgs).content).map ToolResult.is_error
      = ((model msgs).content.filter Block.isToolUse).map
          (fun b => isErr (exec b.bname b.binput)) := by
  refine ⟨?_, runToolRound_eq_map exec _, ?_, ?_⟩
  · simp [agentLoopGo, h]
  · rw [runToolRound_eq_map]; exact map_resultOf_id exec _
  · rw [runToolRound_eq_map]; exact map_resultOf_error exec _

/-- Claim C5, witness: the invariant applied to a concrete tool-use round. -/
theorem c5_witness :
    (toolUseModel demoMsgs).stop_reason = "tool_use" ∧
    (agentLoopGo toolUseModel okExec 1 demoMsgs
      = agentLoopGo toolUseModel okExec 0
          (demoMsgs ++ [Msg.assistant (toolUseModel demoMsgs).content,
                        Msg.userResults (runToolRound okExec (toolUseModel demoMsgs).content)]) ∧
    runToolRound okExec (toolUseModel demoMsgs).content
      = ((toolUseModel demoMsgs).content.filter Block.isToolUse).map (resultOf okExec) ∧
    (runToolRound okExec (toolUseModel demoMsgs).content).map ToolResult.tool_use_id
      = ((toolUseModel demoMsgs).content.filter Block.isToolUse).map Block.bid ∧
    (runToolRound okExec (toolUseModel demoMsgs).content).map ToolResult.is_error
      = ((toolUseModel demoMsgs).content.filter Block.isToolUse).map
          (fun b => isErr (okExec b.bname b.binput))) :=
  ⟨rfl, c5_tool_round_invariant toolUseModel okExec demoMsgs 0 rfl⟩

/-- Claim C6: a model that answers `tool_use` in every round makes the loop
perform exactly 10 rounds, terminate normally with the fixed advisory
fallback reply, and return the conversation extended by exactly 10
assistant/tool-result message pairs in which every tool-result message
answers the invocations of the preceding assistant message. -/
theorem c6_round_budget (model : List Msg → Response)
    (exec : String → Json → Except String Json) (msgs : List Msg)
    (h : ∀ m, (model m).stop_reason = "tool_use") :
    agentLoop model exec msgs = (fallbackReply, toolRounds model exec 10 msgs) ∧
    fallbackReply = "Hit the tool-call limit. Try a more specific question." ∧
    (toolRounds model exec 10 msgs).length = msgs.length + 20 ∧
    (toolRounds model exec 10 msgs).take msgs.length = msgs ∧
    alternatingPairs exec ((toolRounds model exec 10 msgs).drop msgs.length) = true := by
  obtain ⟨tail, h1, h2, h3⟩ := toolRounds_decomp model exec 10 msgs
  refine ⟨agentLoopGo_toolRounds model exec h 10 msgs, rfl, ?_, ?_, ?_⟩
  · rw [h1]; simp [h2]
  · rw [h1]; exact List.take_left msgs tail
  · rw [h1, List.drop_left]; exact h3

/-- Claim C6, witness: the round budget applied to the concrete always-tools
model on a one-message conversation. -/
theorem c6_witness :
    (toolUseModel demoMsgs).stop_reason = "tool_use" ∧
    agentLoop toolUseModel okExec demoMsgs
      = (fallbackReply, toolRounds toolUseModel okExec 10 demoMsgs) ∧
    (toolRounds toolUseModel okExec 10 demoMsgs).length = demoMsgs.length + 20 ∧
    (toolRounds toolUseModel okExec 10 demoMsgs).take demoMsgs.length = demoMsgs ∧
    alternatingPairs okExec
      ((toolRounds toolUseModel okExec 10 demoMsgs).drop demoMsgs.length) = true := by
  have h := c6_round_budget toolUseModel okExec demoMsgs (fun _ => rfl)
  exact ⟨rfl, h.1, h.2.2.1, h.2.2.2.1, h.2.2.2.2⟩

/-- Claim C7, counterexample: the name `constructor` matches no catalog
entry, yet its dispatch does not fail with an unknown-tool error — the route
lookup finds the inherited `Object` constructor, the detached call returns a
fresh empty object, and the batch records a success-tagged Tool Result whose
content is the rendering of the empty object. -/
theorem c7_counterexample :
    "constructor" ∉ routeNames ∧
    executeTool someFetch (Json.num 123) "constructor" (Json.obj []) = Except.ok (Json.obj []) ∧
    resultOf (executeTool someFetch (Json.num 123)) constructorBlock
      = { tool_use_id := "tu_1", content := "\x7b\x7d", is_error := false } := by
  refine ⟨by decide, rfl, rfl⟩

/-- Claim C7, amended: a failing dispatch yields an error-tagged Tool Result
carrying the failure message without aborting the batch, each invocation in a
batch is dispatched independently (the batch is a per-block map), and a tool
name matching no catalog entry fails with "Unknown tool: name" provided it is
also not an inherited member name of the route-table prototype — inherited
names such as `constructor` are invoked as handlers instead. -/
theorem c7_dispatch_safety (fetch : Nat → FetchOutcome) (d : Json)
    (name : String) (input : Json)
    (exec : String → Json → Except String Json) (content : List Block)
    (b : Block) (m : String)
    (hname : name ∉ routeNames) (hproto : name ∉ objectProtoNames)
    (herr : exec b.bname b.binput = Except.error m) :
    executeTool fetch d name input = Except.error ("Unknown tool: " ++ name) ∧
    resultOf exec b
      = { tool_use_id := b.bid,
          content := Json.render (Json.obj [("error", Json.str m)]),
          is_error := true } ∧
    runToolRound exec content = (content.filter Block.isToolUse).map (resultOf exec) := by
  refine ⟨?_, ?_, runToolRound_eq_map exec content⟩
  · simp only [routeNames, List.mem_cons, List.not_mem_nil, or_false, not_or] at hname
    simp only [objectProtoNames, List.mem_cons, List.not_mem_nil, or_false, not_or] at hproto
    obtain ⟨r1, r2, r3, r4, r5, r6, r7⟩ := hname
    obtain ⟨p1, -⟩ := hproto
    simp [executeTool, r1, r2, r3, r4, r5, r6, r7, p1]
  · unfold resultOf
    rw [herr]

/-- Claim C7, witness: the amended theorem applied to the unknown name
`delete_everything` and to a failing dispatch in a one-block batch. -/
theorem c7_witness :
    "delete_everything" ∉ routeNames ∧
    "delete_everything" ∉ objectProtoNames ∧
    failingExec failingBlock.bname failingBlock.binput = Except.error "boom" ∧
    executeTool fetchBare51 (Json.num 123) "delete_everything" (Json.obj [])
      = Except.error ("Unknown tool: " ++ "delete_everything") ∧
    resultOf failingExec failingBlock
      = { tool_use_id := failingBlock.bid,
          content := Json.render (Json.obj [("error", Json.str "boom")]),
          is_error := true } ∧
    runToolRound failingExec [failingBlock]
      = ([failingBlock].filter Block.isToolUse).map (resultOf failingExec) := by
  have h := c7_dispatch_safety fetchBare51 (Json.num 123) "delete_everything" (Json.obj [])
    failingExec [failingBlock] failingBlock "boom" (by decide) (by decide) rfl
  exact ⟨by decide, by decide, rfl, h.1, h.2.1, h.2.2⟩

/-- Claim C8: a row-listing response whose located entry collection has at
most 50 entries passes through `getDataSourceEntries` unchanged. -/
theorem c8_small_passthrough (fetch : Nat → FetchOutcome) (idStr : String) (data : Json)
    (hget : (FlipletAPI.get fetch (dataSourceEntriesPath idStr)).1 = Except.ok data)
    (hsmall : locatedSmall data = true) :
    getDataSourceEntries fetch idStr = Except.ok data := by
  simp only [getDataSourceEntries, hget]
  exact truncateEntries_small data hsmall

/-- Claim C8, witness: the passthrough applied to a three-row listing wrapped
under the fallback `rows` field. -/
theorem c8_witness :
    (FlipletAPI.get fetchRows3 (dataSourceEntriesPath "12")).1 = Except.ok rowsWrapped3 ∧
    locatedSmall rowsWrapped3 = true ∧
    getDataSourceEntries fetchRows3 "12" = Except.ok rowsWrapped3 :=
  ⟨rfl, rfl, c8_small_passthrough fetchRows3 "12" rowsWrapped3 rfl rfl⟩

/-- Claim C9: driven by the same model responses and tool outcomes, the
streaming loop computes exactly the same reply/conversation pair as the
blocking loop, its terminal `done` event carries exactly that pair, and every
other event it emits is an intermediate text-fragment or tool-start event. -/
theorem c9_stream_blocking_equiv (model : List Msg → Response)
    (exec : String → Json → Except String Json) (frags : List Msg → List String)
    (msgs : List Msg) :
    (agentLoopEvGo model exec frags 10 msgs).1 = agentLoop model exec msgs ∧
    streamTurn model exec frags msgs
      = (agentLoopEvGo model exec frags 10 msgs).2
          ++ [Ev.done (agentLoop model exec msgs).1 (agentLoop model exec msgs).2] ∧
    (agentLoopEvGo model exec frags 10 msgs).2.all isIntermediateEv = true := by
  have h := evGo_spec model exec frags 10 msgs
  refine ⟨h.1, ?_, h.2⟩
  simp [streamTurn, agentLoop, h.1]

/-- Claim C10: in a round whose stop reason is neither `end_turn` nor
`tool_use`, the loop appends only the assistant message — no tool results and
no reply — and proceeds to the next round; a model answering such a stop
reason every round ends the turn after 10 rounds with the fallback reply and
10 appended assistant messages. -/
theorem c10_other_stop_reason (model : List Msg → Response)
    (exec : String → Json → Except String Json) (ms msgs : List Msg) (fuel : Nat)
    (h : ∀ m, (model m).stop_reason ≠ "end_turn" ∧ (model m).stop_reason ≠ "tool_use") :
    agentLoopGo model exec (fuel + 1) ms
      = agentLoopGo model exec fuel (ms ++ [Msg.assistant (model ms).content]) ∧
    agentLoop model exec msgs = (fallbackReply, assistantRounds model 10 msgs) ∧
    (assistantRounds model 10 msgs).length = msgs.length + 10 ∧
    (assistantRounds model 10 msgs).take msgs.length = msgs ∧
    ((assistantRounds model 10 msgs).drop msgs.length).all Msg.isAssistant = true := by
  obtain ⟨tail, h1, h2, h3⟩ := assistantRounds_decomp model 10 msgs
  refine ⟨by simp [agentLoopGo, (h ms).1, (h ms).2],
          agentLoopGo_assistantRounds model exec h 10 msgs, ?_, ?_, ?_⟩
  · rw [h1]; simp [h2]
  · rw [h1]; exact List.take_left msgs tail
  · rw [h1, List.drop_left]; exact h3

/-- Claim C10, witness: the theorem applied to a model always stopping with
`max_tokens`. -/
theorem c10_witness :
    (maxTokensModel demoMsgs).stop_reason ≠ "end_turn" ∧
    (maxTokensModel demoMsgs).stop_reason ≠ "tool_use" ∧
    agentLoopGo maxTokensModel okExec 1 demoMsgs
      = agentLoopGo maxTokensModel okExec 0
          (demoMsgs ++ [Msg.assistant (maxTokensModel demoMsgs).content]) ∧
    agentLoop maxTokensModel okExec demoMsgs
      = (fallbackReply, assistantRounds maxTokensModel 10 demoMsgs) ∧
    (assistantRounds maxTokensModel 10 demoMsgs).length = demoMsgs.length + 10 ∧
    ((assistantRounds maxTokensModel 10 demoMsgs).drop demoMsgs.length).all
      Msg.isAssistant = true := by
  have hh : ∀ m, (maxTokensModel m).stop_reason ≠ "end_turn" ∧
      (maxTokensModel m).stop_reason ≠ "tool_use" :=
    fun _ => ⟨(by decide : ("max_tokens" : String) ≠ "end_turn"),
              (by decide : ("max_tokens" : String) ≠ "tool_use")⟩
  have h := c10_other_stop_reason maxTokensModel okExec demoMsgs demoMsgs 0 hh
  exact ⟨(hh demoMsgs).1, (hh demoMsgs).2, h.1, h.2.1, h.2.2.1, h.2.2.2.2⟩

end FlipletChat
